import Mathlib

/-!
Shallow embedding of the long-running-operation orchestrator of
`src/Home.tsx` (VEO Studio): request validation, job submission, bounded
polling, multi-artifact retrieval, error classification and client-side
resource lifecycle.

Modelling conventions:
* JavaScript numbers reaching the video-count setting are modelled as `ℚ`
  (a numeric `<input>` only ever yields a finite decimal string, and
  `Number('') = 0`; the arithmetic the code performs on these values —
  `Math.max`, `Math.min` — is exact on them).
* `URL.createObjectURL` handles are modelled as natural numbers drawn from
  a freshness counter (`Session.nextUrl`); real object URLs are unique.
* The remote service (`ai.models.generateVideos`,
  `ai.operations.getVideosOperation`, `fetch`) is an explicit environment
  of functions returning `Except String _`; `.error raw` models a thrown
  error whose `.message` is `raw`.
* Awaited asynchronous steps are recorded as an explicit event trace
  (`Event`): network calls, timer suspensions, progress reports, object-URL
  creation and revocation.
-/

namespace VeoStudio

/-- Error taxonomy of the specification (`ClassifiedError.kind`).  The code
keeps no explicit kind; the branch of the catch handler (and of the throw
sites) determines which taxonomy entry a failure belongs to. -/
inductive ErrorKind
  | Validation
  | RateLimit
  | NotFound
  | Timeout
  | Download
  | Unknown
deriving DecidableEq, Repr

/-- `videoData.video` of an entry of `operation.response.generatedVideos`:
carries the artifact URI (src/Home.tsx:159). -/
structure VideoRef where
  uri : String
deriving DecidableEq, Repr

/-- One entry of `operation.response.generatedVideos`. -/
structure GeneratedVideoEntry where
  video : VideoRef
deriving DecidableEq, Repr

/-- `operation.response`: the artifact list is optional
(src/Home.tsx:151 guards `operation.response?.generatedVideos`). -/
structure OperationResponse where
  generatedVideos : Option (List GeneratedVideoEntry)
deriving DecidableEq, Repr

/-- A long-running-operation value as the client sees it
(src/Home.tsx:133-153). -/
structure Operation where
  done : Bool
  response : Option OperationResponse
deriving DecidableEq, Repr

/-- The part of a `fetch` response the code consumes: `ok` and
`statusText` (src/Home.tsx:160-163). -/
structure FetchResponse where
  ok : Bool
  statusText : String
deriving DecidableEq, Repr

/-- The uploaded reference image state (src/Home.tsx:61). -/
structure UploadedImage where
  data : String
  mimeType : String
  name : String
deriving DecidableEq, Repr

/-- `config` of the request payload (src/Home.tsx:115-118). -/
structure ConfigPayload where
  numberOfVideos : ℚ
  aspectRatio : String
deriving DecidableEq, Repr

/-- The request payload built by `handleSubmit` (src/Home.tsx:120-131). -/
structure Payload where
  model : String
  prompt : String
  config : ConfigPayload
  image : Option (String × String)
deriving DecidableEq, Repr

/- ## Error classification (src/Home.tsx:22-50 and 171-179) -/

/-- `pat.isPrefixOf` tried at every suffix: `s.includes(pat)` of
JavaScript, on character lists. -/
def substrAux (pat : List Char) : List Char → Bool
  | [] => pat.isEmpty
  | c :: tl => pat.isPrefixOf (c :: tl) || substrAux pat tl

/-- `s.includes(pat)` (JavaScript substring containment). -/
def containsSubstr (s pat : String) : Bool :=
  substrAux pat.data s.data

/-- The whitespace class `\s` of the JavaScript regex, restricted to the
ASCII whitespace characters (the only ones that can occur in the error
strings at issue). -/
def isJsSpace (c : Char) : Bool :=
  c = ' ' || c = '\t' || c = '\n' || c = '\r' || c = '\x0b' || c = '\x0c'

/-- Line terminators that the JavaScript `.` (as used in `(.*?)`) does not
match. -/
def isJsNewline (c : Char) : Bool :=
  c = '\n' || c = '\r'

/-- The capture group `(.*?)"`: shortest run of non-newline characters up
to a closing quote; `none` when no closing quote is reachable. -/
def captureUpToQuote : List Char → List Char → Option String
  | [], _ => none
  | c :: tl, acc =>
    if c = '"' then some (String.mk acc.reverse)
    else if isJsNewline c then none
    else captureUpToQuote tl (c :: acc)

/-- Attempt of the regex `/"message":\s*"(.*?)"/` at one start position. -/
def matchAt (l : List Char) : Option String :=
  let pat := "\"message\":".data
  if pat.isPrefixOf l then
    match (l.drop pat.length).dropWhile isJsSpace with
    | '"' :: tail => captureUpToQuote tail []
    | _ => none
  else none

/-- Leftmost-match search of `RegExp.exec`: try each start position in
order. -/
def execFirst : List Char → Option String
  | [] => matchAt []
  | l@(_ :: tl) =>
    match matchAt l with
    | some m => some m
    | none => execFirst tl

/-- First captured group of `/"message":\s*"(.*?)"/g.exec(error)`
(src/Home.tsx:44-45).  The regex object is created afresh on every call,
so no `lastIndex` state survives between invocations. -/
def extractMessage (s : String) : Option String :=
  execFirst s.data

/-- The fixed quota-guidance text rendered by the rate-limit branch of
`parseError` (src/Home.tsx:24-42), flattened to a string. -/
def rateLimitMessage : String :=
  "You\x27ve exceeded your current API quota (Rate Limit). This is a usage limit on Google\x27s servers. Please check your plan and billing details, or try again after some time. For more information, visit the Gemini API rate limits documentation."

/-- `parseError` (src/Home.tsx:22-50), with the taxonomy kind of the branch
taken recorded alongside the user-facing message.  `match && match[1]`
means an empty captured group falls through to returning the raw text. -/
def parseErrorC (error : String) : ErrorKind × String :=
  if containsSubstr error "429" && containsSubstr error "RESOURCE_EXHAUSTED" then
    (ErrorKind.RateLimit, rateLimitMessage)
  else
    match extractMessage error with
    | some m => if m = "" then (ErrorKind.Unknown, error) else (ErrorKind.Unknown, m)
    | none => (ErrorKind.Unknown, error)

/-- The not-found marker tested first in the catch handler
(src/Home.tsx:175). -/
def notFoundMarker : String :=
  "Requested entity was not found"

/-- The full classification the catch handler performs on a raw error
message (src/Home.tsx:173-179): the not-found check runs first, and only
its else-branch calls `parseError`. -/
def classifyCatch (raw modelInUse : String) : ErrorKind × String :=
  if containsSubstr raw notFoundMarker then
    (ErrorKind.NotFound,
      "Error: The model \x27" ++ modelInUse ++ "\x27 was not found. Please check the model name.")
  else
    parseErrorC raw

/-- `(error as Error).message || 'An unexpected error occurred.'`
(src/Home.tsx:173). -/
def rawOf (m : String) : String :=
  if m = "" then "An unexpected error occurred." else m

example : containsSubstr "abc 429 RESOURCE_EXHAUSTED" "429" = true := by decide
example : (parseErrorC "xx 429 yy RESOURCE_EXHAUSTED zz").1 = ErrorKind.RateLimit := by decide
example : extractMessage "pre \"message\": \"inner text\" post" = some "inner text" := by decide
example : extractMessage "Video generation timed out. Please try again." = none := by decide
example :
    (classifyCatch "429 RESOURCE_EXHAUSTED Requested entity was not found" "m").1 =
      ErrorKind.NotFound := by decide

/- ## Session state and environment -/

/-- The session state held by the component (src/Home.tsx:54-66), plus the
freshness counter `nextUrl` backing the object-URL model. -/
structure Session where
  prompt : String
  generatedVideos : List Nat
  isLoading : Bool
  loadingMessage : String
  showErrorModal : Bool
  errorMessage : String
  showSettings : Bool
  uploadedImage : Option UploadedImage
  numberOfVideos : ℚ
  aspectRatio : String
  nextUrl : Nat
deriving DecidableEq, Repr

/-- Initial state of all `useState` hooks (src/Home.tsx:54-66). -/
def initSession : Session :=
  { prompt := ""
    generatedVideos := []
    isLoading := false
    loadingMessage := ""
    showErrorModal := false
    errorMessage := ""
    showSettings := false
    uploadedImage := none
    numberOfVideos := 1
    aspectRatio := "16:9"
    nextUrl := 0 }

/-- The remote service and transport, as an explicit dependency:
`ai.models.generateVideos`, `ai.operations.getVideosOperation`, `fetch`,
and the credential `process.env.API_KEY`.  `.error raw` models a rejected
promise / thrown error with message `raw`. -/
structure Env where
  apiKey : String
  generateVideos : Payload → Except String Operation
  getVideosOperation : Operation → Except String Operation
  fetch : String → Except String FetchResponse

/-- Observable effects of one run, in program order. -/
inductive Event
  | revoke (h : Nat)
  | submitCall (p : Payload)
  | sleep (ms : Nat)
  | pollCall (attempt : Nat)
  | progress (attempt : Nat)
  | fetchCall (url : String)
  | createUrl (h : Nat)
deriving DecidableEq, Repr

/-- Object-URL handles revoked in an event list. -/
def revs (evs : List Event) : List Nat :=
  evs.filterMap fun e =>
    match e with
    | .revoke h => some h
    | _ => none

/-- Object-URL handles created in an event list. -/
def creates (evs : List Event) : List Nat :=
  evs.filterMap fun e =>
    match e with
    | .createUrl h => some h
    | _ => none

/- ## The run: submission, polling, fetching (src/Home.tsx:100-185) -/

/-- Marks which throw site of the `try` block produced a failure; `message`
below recovers the exact thrown string. -/
inductive RunError
  | timeout
  | noResult
  | download (statusText : String)
  | api (raw : String)
deriving DecidableEq, Repr

/-- The thrown `Error`'s `.message` (src/Home.tsx:148, 152, 162, or the
raw message of a rejected service call). -/
def RunError.message : RunError → String
  | .timeout => "Video generation timed out. Please try again."
  | .noResult => "Video generation failed to produce a result. Please check your prompt and settings."
  | .download st => "Failed to download video: " ++ st
  | .api raw => raw

/-- `maxPolls` (src/Home.tsx:138). -/
def maxPolls : Nat := 60

/-- The polling loop (src/Home.tsx:140-145): while the operation is not
done and attempts remain, suspend 10000 ms, re-poll with the current
handle, replace the handle, increment the counter, and report progress.
`fuel` is the number of remaining attempts (`maxPolls - pollCount`);
`pollCount` numbers the attempts. -/
def pollLoop (env : Env) : Nat → Operation → Nat → List Event × Except String Operation
  | 0, op, _ => ([], .ok op)
  | fuel + 1, op, pollCount =>
    if op.done then ([], .ok op)
    else
      match env.getVideosOperation op with
      | .error e => ([.sleep 10000, .pollCall (pollCount + 1)], .error e)
      | .ok op2 =>
        let r := pollLoop env fuel op2 (pollCount + 1)
        (.sleep 10000 :: .pollCall (pollCount + 1) :: .progress (pollCount + 1) :: r.1, r.2)

/-- The URL fetched for one artifact: `` `${uri}&key=${process.env.API_KEY}` ``
(src/Home.tsx:160). -/
def fetchUrl (env : Env) (v : GeneratedVideoEntry) : String :=
  v.video.uri ++ "&key=" ++ env.apiKey

/-- Outcome of the `try` block: events in order, the object-URL counter
after the run, and either the ordered list of created object URLs or the
error thrown. -/
structure TryResult where
  events : List Event
  next : Nat
  result : Except RunError (List Nat)
deriving Repr

/-- The sequential download loop (src/Home.tsx:157-167): for each artifact
in order, fetch its URI with the credential appended; a non-ok response
throws the download error, a rejected fetch propagates; on success a fresh
object URL is created and pushed. -/
def fetchLoop (env : Env) : List GeneratedVideoEntry → Nat → TryResult
  | [], next => ⟨[], next, .ok []⟩
  | v :: rest, next =>
    let url := fetchUrl env v
    match env.fetch url with
    | .error e => ⟨[.fetchCall url], next, .error (.api e)⟩
    | .ok resp =>
      if resp.ok then
        let r := fetchLoop env rest (next + 1)
        ⟨.fetchCall url :: .createUrl next :: r.events, r.next,
          r.result.map fun urls => next :: urls⟩
      else
        ⟨[.fetchCall url], next, .error (.download resp.statusText)⟩

/-- The request payload (src/Home.tsx:115-131): model
`'veo-2.0-generate-001'`, the current prompt, `Number(numberOfVideos)`
(identity on a number), the aspect ratio, and the uploaded image bytes if
present. -/
def mkPayload (s : Session) : Payload :=
  { model := "veo-2.0-generate-001"
    prompt := s.prompt
    config := { numberOfVideos := s.numberOfVideos, aspectRatio := s.aspectRatio }
    image := s.uploadedImage.map fun im => (im.data, im.mimeType) }

/-- `operation.response?.generatedVideos`, collapsing a missing list and
an empty list to `none` exactly as the guard on src/Home.tsx:151 does. -/
def responseVids (op : Operation) : Option (List GeneratedVideoEntry) :=
  match op.response with
  | none => none
  | some resp =>
    match resp.generatedVideos with
    | none => none
    | some vids => if vids = [] then none else some vids

/-- The `try` block of `handleSubmit` (src/Home.tsx:114-169): submit the
job; poll up to `maxPolls` times; a still-unfinished operation throws the
timeout error; a done operation with a missing or empty
`response.generatedVideos` throws the no-result error; otherwise each
artifact is downloaded in order. -/
def tryBody (env : Env) (payload : Payload) (next : Nat) : TryResult :=
  match env.generateVideos payload with
  | .error e => ⟨[.submitCall payload], next, .error (.api e)⟩
  | .ok op0 =>
    let pr := pollLoop env maxPolls op0 0
    match pr.2 with
    | .error e => ⟨.submitCall payload :: pr.1, next, .error (.api e)⟩
    | .ok opF =>
      if opF.done then
        match responseVids opF with
        | none => ⟨.submitCall payload :: pr.1, next, .error .noResult⟩
        | some vids =>
          let fr := fetchLoop env vids next
          ⟨.submitCall payload :: (pr.1 ++ fr.events), fr.next, fr.result⟩
      else
        ⟨.submitCall payload :: pr.1, next, .error .timeout⟩

/-- The validation error text (src/Home.tsx:103).  The specification's
taxonomy assigns this early failure the kind `Validation`. -/
def validationMessage : String :=
  "Please enter a prompt or upload an image to generate a video."

/-- `handleSubmit` (src/Home.tsx:100-185) as one state transition.  An
empty prompt with no uploaded image returns before any effect; otherwise
the previous batch is revoked and cleared, the try block runs, a success
installs the new batch, a failure routes the raw message through the catch
handler's classification; the `finally` clause clears the loading state on
both paths. -/
def handleSubmit (env : Env) (s : Session) : Session × List Event :=
  if s.prompt = "" && s.uploadedImage.isNone then
    ({ s with errorMessage := validationMessage, showErrorModal := true }, [])
  else
    let revEvs := s.generatedVideos.map Event.revoke
    let payload := mkPayload s
    let tr := tryBody env payload s.nextUrl
    match tr.result with
    | .ok urls =>
      ({ s with generatedVideos := urls, nextUrl := tr.next,
                isLoading := false, loadingMessage := "" },
        revEvs ++ tr.events)
    | .error e =>
      let cls := classifyCatch (rawOf e.message) payload.model
      ({ s with generatedVideos := [], nextUrl := tr.next,
                errorMessage := cls.2, showErrorModal := true,
                isLoading := false, loadingMessage := "" },
        revEvs ++ tr.events)

/-- A submission attempt as dispatchable from the page: the submit control
is rendered `disabled={isLoading}` (src/Home.tsx:331), so while a run is
in flight the form's submit handler is never invoked. -/
def uiSubmit (env : Env) (s : Session) : Session × List Event :=
  if s.isLoading then (s, []) else handleSubmit env s

/-- `handleClear` (src/Home.tsx:68-76): revoke every current object URL,
empty the batch, reset prompt, image and settings. -/
def handleClear (s : Session) : Session × List Event :=
  ({ s with generatedVideos := [], prompt := "", uploadedImage := none,
            numberOfVideos := 1, aspectRatio := "16:9" },
    s.generatedVideos.map Event.revoke)

/-- The video-count clamp of the settings input
(src/Home.tsx:367): `Math.max(1, Math.min(4, Number(e.target.value)))`. -/
def clampNumVideos (x : ℚ) : ℚ :=
  max 1 (min 4 x)

/- ## User-interaction state machine -/

/-- The user interactions that mutate session state, each carrying the
value its handler receives. -/
inductive UIEvent
  | setPromptEv (p : String)
  | uploadImageEv (img : UploadedImage)
  | removeImageEv
  | numVideosInput (x : ℚ)
  | setAspectEv (r : String)
  | toggleSettingsEv
  | clearEv
  | submitEv (env : Env)

/-- Dispatch of one user interaction to its handler
(src/Home.tsx:68-98, 238, 325, 367, 371, and the form submission). -/
def step (s : Session) : UIEvent → Session × List Event
  | .setPromptEv p => ({ s with prompt := p }, [])
  | .uploadImageEv img => ({ s with uploadedImage := some img }, [])
  | .removeImageEv => ({ s with uploadedImage := none }, [])
  | .numVideosInput x => ({ s with numberOfVideos := clampNumVideos x }, [])
  | .setAspectEv r => ({ s with aspectRatio := r }, [])
  | .toggleSettingsEv => ({ s with showSettings := !s.showSettings }, [])
  | .clearEv => handleClear s
  | .submitEv env => uiSubmit env s

/-- A whole interaction history, with the concatenated event trace. -/
def runTrace : Session → List UIEvent → Session × List Event
  | s, [] => (s, [])
  | s, e :: es =>
    let r1 := step s e
    let r2 := runTrace r1.1 es
    (r2.1, r1.2 ++ r2.2)

/-- A trivial concrete environment whose every remote call rejects; used to
instantiate universally quantified statements. -/
def envTriv : Env :=
  { apiKey := "k"
    generateVideos := fun _ => .error "network unavailable"
    getVideosOperation := fun _ => .error "network unavailable"
    fetch := fun _ => .error "network unavailable" }

/- ## Supporting lemmas -/

theorem handleSubmit_numberOfVideos (env : Env) (s : Session) :
    (handleSubmit env s).1.numberOfVideos = s.numberOfVideos := by
  unfold handleSubmit
  split
  · rfl
  · dsimp only
    split <;> rfl

theorem uiSubmit_numberOfVideos (env : Env) (s : Session) :
    (uiSubmit env s).1.numberOfVideos = s.numberOfVideos := by
  unfold uiSubmit
  split
  · rfl
  · exact handleSubmit_numberOfVideos env s

theorem handleSubmit_isLoading (env : Env) (s : Session) (h : s.isLoading = false) :
    (handleSubmit env s).1.isLoading = false := by
  unfold handleSubmit
  split
  · exact h
  · dsimp only
    split <;> rfl

/- ## Claims -/

/-- C7: a submission with an empty prompt and no uploaded image fails with
the validation error before any effect: the only state change is the error
display, and the event trace is empty, so no network call is issued. -/
theorem validation_no_network (env : Env) (s : Session)
    (hp : s.prompt = "") (hi : s.uploadedImage = none) :
    handleSubmit env s =
      ({ s with errorMessage := validationMessage, showErrorModal := true }, []) := by
  unfold handleSubmit
  rw [hp, hi]
  simp

theorem validation_no_network_witness :
    handleSubmit envTriv initSession =
      ({ initSession with errorMessage := validationMessage, showErrorModal := true }, []) :=
  validation_no_network envTriv initSession rfl rfl

/-- C10: when validation fails, every piece of session state other than
the error display is unchanged — the batch is neither cleared nor revoked,
the busy flag is untouched, and prompt, image and settings are intact. -/
theorem validation_frame (env : Env) (s : Session)
    (hp : s.prompt = "") (hi : s.uploadedImage = none) :
    (handleSubmit env s).1.prompt = s.prompt ∧
    (handleSubmit env s).1.uploadedImage = s.uploadedImage ∧
    (handleSubmit env s).1.generatedVideos = s.generatedVideos ∧
    (handleSubmit env s).1.nextUrl = s.nextUrl ∧
    (handleSubmit env s).1.isLoading = s.isLoading ∧
    (handleSubmit env s).1.loadingMessage = s.loadingMessage ∧
    (handleSubmit env s).1.numberOfVideos = s.numberOfVideos ∧
    (handleSubmit env s).1.aspectRatio = s.aspectRatio ∧
    (handleSubmit env s).1.showSettings = s.showSettings ∧
    (handleSubmit env s).2 = [] := by
  rw [validation_no_network env s hp hi]
  exact ⟨rfl, rfl, rfl, rfl, rfl, rfl, rfl, rfl, rfl, rfl⟩

theorem validation_frame_witness :
    ({ initSession with generatedVideos := [0], nextUrl := 1, isLoading := false } :
        Session).generatedVideos = [0] ∧
    (handleSubmit envTriv
        { initSession with generatedVideos := [0], nextUrl := 1 }).1.generatedVideos = [0] :=
  ⟨rfl, by
    have h := validation_frame envTriv
      { initSession with generatedVideos := [0], nextUrl := 1 } rfl rfl
    exact h.2.2.1⟩

/-- C9: the classification of a raw error message is a pure function of the
raw text (and of the model name the catch handler interpolates); two
invocations on the same input yield the same classified output — the regex
is re-created on each call, so no matcher state survives. -/
theorem classifier_deterministic (raw modelInUse : String) :
    classifyCatch raw modelInUse = classifyCatch raw modelInUse ∧
    parseErrorC raw = parseErrorC raw :=
  ⟨rfl, rfl⟩

/-- A raw message carrying the rate-limit markers and the not-found marker
at once. -/
def bothMarkersMessage : String :=
  "429 RESOURCE_EXHAUSTED: Requested entity was not found"

/-- An environment whose submission call rejects with
`bothMarkersMessage`. -/
def envRateLimitCex : Env :=
  { envTriv with generateVideos := fun _ => .error bothMarkersMessage }

/-- A session that passes validation. -/
def sOnePrompt : Session :=
  { initSession with prompt := "a cat" }

/-- C2, counterexample: a raw message containing a 429 marker and a
RESOURCE_EXHAUSTED marker but also the not-found marker is classified
`NotFound`, not `RateLimit` — the catch handler tests the not-found marker
before `parseError` ever runs, so the claimed "regardless of any other
substring" fails. -/
theorem rate_limit_priority_cex :
    containsSubstr bothMarkersMessage "429" = true ∧
    containsSubstr bothMarkersMessage "RESOURCE_EXHAUSTED" = true ∧
    (classifyCatch bothMarkersMessage "veo-2.0-generate-001").1 = ErrorKind.NotFound ∧
    (classifyCatch bothMarkersMessage "veo-2.0-generate-001").1 ≠ ErrorKind.RateLimit ∧
    (handleSubmit envRateLimitCex sOnePrompt).1.errorMessage ≠ rateLimitMessage := by
  decide

/-- C2, amended: a raw message containing both a 429 marker and a
RESOURCE_EXHAUSTED marker, and not containing the not-found marker, is
always classified `RateLimit` with the fixed quota-guidance message,
regardless of any other substring present. -/
theorem rate_limit_classification (raw modelInUse : String)
    (h1 : containsSubstr raw "429" = true)
    (h2 : containsSubstr raw "RESOURCE_EXHAUSTED" = true)
    (h3 : containsSubstr raw notFoundMarker = false) :
    classifyCatch raw modelInUse = (ErrorKind.RateLimit, rateLimitMessage) := by
  unfold classifyCatch parseErrorC
  rw [h3, h1, h2]
  simp

theorem rate_limit_classification_witness :
    classifyCatch "HTTP 429: RESOURCE_EXHAUSTED, quota exceeded" "m" =
      (ErrorKind.RateLimit, rateLimitMessage) :=
  rate_limit_classification "HTTP 429: RESOURCE_EXHAUSTED, quota exceeded" "m"
    (by decide) (by decide) (by decide)

/-- C8, counterexample: the settings handler clamps the video count to the
interval `[1,4]` but does not round it, so the non-integer input `5/2`
reaches the request configuration as `5/2` — the claimed "always an
integer" fails. -/
theorem num_videos_integer_cex :
    (mkPayload (step initSession (UIEvent.numVideosInput (5/2))).1).config.numberOfVideos
        = 5/2 ∧
    ¬ ∃ k : ℤ, ((5 : ℚ)/2) = (k : ℚ) := by
  constructor
  · show clampNumVideos (5/2) = 5/2
    unfold clampNumVideos
    rw [min_eq_right (by norm_num : (5:ℚ)/2 ≤ 4),
        max_eq_right (by norm_num : (1:ℚ) ≤ 5/2)]
  · rintro ⟨k, hk⟩
    have h5 : (5 : ℚ) = 2 * (k : ℚ) := by
      field_simp at hk
      linarith
    have h5' : (5 : ℤ) = 2 * k := by exact_mod_cast h5
    omega

theorem step_numberOfVideos_bounds (s : Session) (e : UIEvent)
    (h1 : 1 ≤ s.numberOfVideos) (h4 : s.numberOfVideos ≤ 4) :
    1 ≤ (step s e).1.numberOfVideos ∧ (step s e).1.numberOfVideos ≤ 4 := by
  cases e with
  | numVideosInput x =>
    refine ⟨le_max_left _ _, max_le (by norm_num) (min_le_left _ _)⟩
  | clearEv =>
    constructor
    · exact le_refl _
    · show (1 : ℚ) ≤ 4
      norm_num
  | submitEv env =>
    rw [show (step s (UIEvent.submitEv env)).1 = (uiSubmit env s).1 from rfl,
        uiSubmit_numberOfVideos]
    exact ⟨h1, h4⟩
  | _ => exact ⟨h1, h4⟩

theorem runTrace_numberOfVideos_bounds :
    ∀ (es : List UIEvent) (s : Session),
      1 ≤ s.numberOfVideos → s.numberOfVideos ≤ 4 →
      1 ≤ (runTrace s es).1.numberOfVideos ∧ (runTrace s es).1.numberOfVideos ≤ 4
  | [], _, h1, h4 => ⟨h1, h4⟩
  | e :: es, s, h1, h4 => by
    have h := step_numberOfVideos_bounds s e h1 h4
    simpa [runTrace] using runTrace_numberOfVideos_bounds es (step s e).1 h.1 h.2

/-- C8, amended: over every sequence of user inputs, the video count held
in session state — and hence the `numberOfVideos` placed in the submitted
request configuration — lies in `[1,4]` inclusive (it need not be an
integer when the raw input is not). -/
theorem num_videos_clamped (es : List UIEvent) :
    1 ≤ (runTrace initSession es).1.numberOfVideos ∧
    (runTrace initSession es).1.numberOfVideos ≤ 4 ∧
    (mkPayload (runTrace initSession es).1).config.numberOfVideos =
      (runTrace initSession es).1.numberOfVideos := by
  have h := runTrace_numberOfVideos_bounds es initSession (le_refl _)
    (show (1 : ℚ) ≤ 4 by norm_num)
  exact ⟨h.1, h.2, rfl⟩

/-- C1: while `busy` (`isLoading`) is true the submit control is rendered
disabled, so a submission attempt changes no session state and issues no
effect; both exits of a run end in the `finally` clause clearing
`isLoading`, after which a new submission attempt dispatches the handler
normally. -/
theorem submit_busy_noop (env env2 : Env) (s : Session) :
    (s.isLoading = true → uiSubmit env s = (s, [])) ∧
    (s.isLoading = false →
      uiSubmit env s = handleSubmit env s ∧
      (uiSubmit env s).1.isLoading = false ∧
      uiSubmit env2 (uiSubmit env s).1 = handleSubmit env2 (uiSubmit env s).1) := by
  constructor
  · intro h
    simp [uiSubmit, h]
  · intro h
    have h1 : uiSubmit env s = handleSubmit env s := by simp [uiSubmit, h]
    have h2 : (uiSubmit env s).1.isLoading = false := by
      rw [h1]
      exact handleSubmit_isLoading env s h
    refine ⟨h1, h2, ?_⟩
    generalize hT : (uiSubmit env s).1 = t at h2 ⊢
    simp [uiSubmit, h2]

/-- A state mid-run: `isLoading` set. -/
def sBusy : Session :=
  { initSession with isLoading := true }

theorem submit_busy_noop_witness :
    uiSubmit envTriv sBusy = (sBusy, []) ∧
    uiSubmit envTriv initSession = handleSubmit envTriv initSession :=
  ⟨(submit_busy_noop envTriv envTriv sBusy).1 rfl,
    ((submit_busy_noop envTriv envTriv initSession).2 rfl).1⟩

/- ## Polling lemmas -/

theorem pollLoop_done (env : Env) (op : Operation) (h : op.done = true) :
    ∀ (fuel c : Nat), pollLoop env fuel op c = ([], .ok op) := by
  intro fuel c
  cases fuel with
  | zero => rfl
  | succ n => simp [pollLoop, h]

/-- The events of the attempt numbered `k`: the 10000 ms suspension, the
poll call, and the progress report (src/Home.tsx:141-144). -/
def attemptBlock (k : Nat) : List Event :=
  [.sleep 10000, .pollCall k, .progress k]

theorem pollLoop_never_done (env : Env)
    (hpoll : ∀ o, ∃ o', env.getVideosOperation o = .ok o' ∧ o'.done = false) :
    ∀ (fuel : Nat) (op : Operation) (c : Nat), op.done = false →
      ∃ opF, pollLoop env fuel op c =
          ((List.range' (c + 1) fuel).flatMap attemptBlock, .ok opF) ∧
        opF.done = false := by
  intro fuel
  induction fuel with
  | zero => intro op c h; exact ⟨op, rfl, h⟩
  | succ n ih =>
    intro op c h
    obtain ⟨o', h1, h2⟩ := hpoll op
    obtain ⟨opF, h3, h4⟩ := ih o' (c + 1) h2
    refine ⟨opF, ?_, h4⟩
    simp only [pollLoop, h, h1]
    rw [h3, List.range'_succ]
    simp [attemptBlock]

/- ## handleSubmit on the two exits of the try block -/

theorem handleSubmit_of_error (env : Env) (s : Session)
    (hval : ¬(s.prompt = "" ∧ s.uploadedImage = none))
    (e : RunError)
    (h : (tryBody env (mkPayload s) s.nextUrl).result = .error e) :
    handleSubmit env s =
      ({ s with generatedVideos := [],
                nextUrl := (tryBody env (mkPayload s) s.nextUrl).next,
                errorMessage := (classifyCatch (rawOf e.message) "veo-2.0-generate-001").2,
                showErrorModal := true, isLoading := false, loadingMessage := "" },
        s.generatedVideos.map Event.revoke ++
          (tryBody env (mkPayload s) s.nextUrl).events) := by
  unfold handleSubmit
  rw [if_neg (by simpa [Option.isNone_iff_eq_none] using hval)]
  dsimp only
  rw [h]
  rfl

theorem handleSubmit_of_ok (env : Env) (s : Session)
    (hval : ¬(s.prompt = "" ∧ s.uploadedImage = none))
    (urls : List Nat)
    (h : (tryBody env (mkPayload s) s.nextUrl).result = .ok urls) :
    handleSubmit env s =
      ({ s with generatedVideos := urls,
                nextUrl := (tryBody env (mkPayload s) s.nextUrl).next,
                isLoading := false, loadingMessage := "" },
        s.generatedVideos.map Event.revoke ++
          (tryBody env (mkPayload s) s.nextUrl).events) := by
  unfold handleSubmit
  rw [if_neg (by simpa [Option.isNone_iff_eq_none] using hval)]
  dsimp only
  rw [h]

/- ## Event bookkeeping -/

theorem revs_append (a b : List Event) : revs (a ++ b) = revs a ++ revs b :=
  List.filterMap_append a b _

theorem creates_append (a b : List Event) : creates (a ++ b) = creates a ++ creates b :=
  List.filterMap_append a b _

theorem creates_of_revokes (l : List Nat) : creates (l.map Event.revoke) = [] := by
  induction l with
  | nil => rfl
  | cons h t ih => simp [creates, List.filterMap_cons]

theorem revs_of_revokes (l : List Nat) : revs (l.map Event.revoke) = l := by
  induction l with
  | nil => rfl
  | cons h t ih => simpa [revs, List.filterMap_cons] using ih

theorem creates_of_attemptBlocks (l : List Nat) :
    creates (l.flatMap attemptBlock) = [] := by
  induction l with
  | nil => rfl
  | cons h t ih => simpa [creates, attemptBlock, List.filterMap_cons] using ih

theorem revs_of_attemptBlocks (l : List Nat) :
    revs (l.flatMap attemptBlock) = [] := by
  induction l with
  | nil => rfl
  | cons h t ih => simpa [revs, attemptBlock, List.filterMap_cons] using ih

/-- Total suspended time recorded in an event trace. -/
def sleepTotal (evs : List Event) : Nat :=
  (evs.filterMap fun e =>
    match e with
    | .sleep n => some n
    | _ => none).sum

/-- C4: when polling never observes `done`, the run performs exactly 60
attempts numbered 1 to 60, each consisting of a 10000 ms suspension, a
poll call and a progress report; it then fails with the timeout error, no
artifact is fetched and nothing is installed, and the total suspension is
`maxPolls * 10000` time units. -/
theorem poll_timeout (env : Env) (s : Session)
    (hval : ¬(s.prompt = "" ∧ s.uploadedImage = none))
    (op0 : Operation)
    (hsub : env.generateVideos (mkPayload s) = .ok op0)
    (h0 : op0.done = false)
    (hpoll : ∀ o, ∃ o', env.getVideosOperation o = .ok o' ∧ o'.done = false) :
    (tryBody env (mkPayload s) s.nextUrl).result = .error .timeout ∧
    (tryBody env (mkPayload s) s.nextUrl).events =
      .submitCall (mkPayload s) :: (List.range' 1 maxPolls).flatMap attemptBlock ∧
    (∀ u, Event.fetchCall u ∉ (handleSubmit env s).2) ∧
    creates (handleSubmit env s).2 = [] ∧
    (handleSubmit env s).1.errorMessage = RunError.timeout.message ∧
    (handleSubmit env s).1.generatedVideos = [] ∧
    sleepTotal (tryBody env (mkPayload s) s.nextUrl).events = maxPolls * 10000 := by
  obtain ⟨opF, hpl, hdF⟩ := pollLoop_never_done env hpoll maxPolls op0 0 h0
  have htb : tryBody env (mkPayload s) s.nextUrl =
      ⟨.submitCall (mkPayload s) :: (List.range' 1 maxPolls).flatMap attemptBlock,
        s.nextUrl, .error .timeout⟩ := by
    unfold tryBody
    rw [hsub]
    dsimp only
    rw [hpl]
    simp [hdF]
  have hhs := handleSubmit_of_error env s hval .timeout (by rw [htb])
  refine ⟨by rw [htb], by rw [htb], ?_, ?_, ?_, ?_, ?_⟩
  · intro u hmem
    rw [hhs, htb] at hmem
    simp only [List.mem_append, List.mem_map, List.mem_cons, List.mem_flatMap,
      attemptBlock] at hmem
    rcases hmem with ⟨_, _, h⟩ | h | ⟨_, _, h⟩ <;> simp_all
  · rw [hhs, htb]
    rw [creates_append, creates_of_revokes]
    simpa [creates, List.filterMap_cons] using creates_of_attemptBlocks (List.range' 1 maxPolls)
  · rw [hhs]
    show (classifyCatch (rawOf RunError.timeout.message) "veo-2.0-generate-001").2 =
      RunError.timeout.message
    decide
  · rw [hhs]
  · rw [htb]
    rfl

/-- An environment whose job never completes. -/
def envPoll : Env :=
  { envTriv with
    generateVideos := fun _ => .ok ⟨false, none⟩
    getVideosOperation := fun _ => .ok ⟨false, none⟩ }

theorem poll_timeout_witness :
    (tryBody envPoll (mkPayload sOnePrompt) sOnePrompt.nextUrl).result =
        .error .timeout ∧
    (handleSubmit envPoll sOnePrompt).1.errorMessage = RunError.timeout.message :=
  ⟨(poll_timeout envPoll sOnePrompt (by decide) ⟨false, none⟩ rfl rfl
      fun _ => ⟨⟨false, none⟩, rfl, rfl⟩).1,
    (poll_timeout envPoll sOnePrompt (by decide) ⟨false, none⟩ rfl rfl
      fun _ => ⟨⟨false, none⟩, rfl, rfl⟩).2.2.2.2.1⟩

/-- C6: a run whose operation completes with a missing or empty artifact
list fails with the distinct no-result error; the catch-handler
classification files that message under `Unknown` and surfaces it
verbatim, and no resource is created or installed. -/
theorem empty_result_unknown (env : Env) (s : Session)
    (hval : ¬(s.prompt = "" ∧ s.uploadedImage = none))
    (op0 : Operation)
    (hsub : env.generateVideos (mkPayload s) = .ok op0)
    (hdone : op0.done = true)
    (hempty : op0.response = none ∨ ∃ resp, op0.response = some resp ∧
        (resp.generatedVideos = none ∨ resp.generatedVideos = some [])) :
    (tryBody env (mkPayload s) s.nextUrl).result = .error .noResult ∧
    (handleSubmit env s).1.errorMessage = RunError.noResult.message ∧
    (classifyCatch RunError.noResult.message "veo-2.0-generate-001").1 =
      ErrorKind.Unknown ∧
    (handleSubmit env s).1.generatedVideos = [] ∧
    creates (handleSubmit env s).2 = [] := by
  have hrv : responseVids op0 = none := by
    rcases hempty with h | ⟨resp, h1, h2 | h2⟩ <;> simp [responseVids, *]
  have htb : tryBody env (mkPayload s) s.nextUrl =
      ⟨[.submitCall (mkPayload s)], s.nextUrl, .error .noResult⟩ := by
    unfold tryBody
    rw [hsub]
    dsimp only
    rw [pollLoop_done env op0 hdone maxPolls 0]
    simp [hdone, hrv]
  have hhs := handleSubmit_of_error env s hval .noResult (by rw [htb])
  refine ⟨by rw [htb], ?_, by decide, by rw [hhs], ?_⟩
  · rw [hhs]
    show (classifyCatch (rawOf RunError.noResult.message) "veo-2.0-generate-001").2 =
      RunError.noResult.message
    decide
  · rw [hhs, htb]
    rw [creates_append, creates_of_revokes]
    rfl

/-- An environment whose job completes immediately with an empty artifact
list. -/
def envEmpty : Env :=
  { envTriv with generateVideos := fun _ => .ok ⟨true, some ⟨some []⟩⟩ }

/- ## Download lemmas -/

theorem fetchLoop_spec (env : Env) :
    ∀ (vids : List GeneratedVideoEntry) (next : Nat),
      next ≤ (fetchLoop env vids next).next ∧
      (∀ h, Event.createUrl h ∈ (fetchLoop env vids next).events →
        next ≤ h ∧ h < (fetchLoop env vids next).next) ∧
      revs (fetchLoop env vids next).events = [] ∧
      (∀ urls, (fetchLoop env vids next).result = .ok urls →
        urls = List.range' next ((fetchLoop env vids next).next - next) ∧
        urls.length = vids.length ∧
        ∀ v ∈ vids, ∃ r, env.fetch (fetchUrl env v) = .ok r ∧ r.ok = true) := by
  intro vids
  induction vids with
  | nil =>
    intro next
    refine ⟨le_refl _, ?_, rfl, ?_⟩
    · intro h hm
      simp [fetchLoop] at hm
    · intro urls hu
      have : urls = [] := by simpa [fetchLoop] using hu.symm
      subst this
      exact ⟨by simp [fetchLoop], rfl, by simp⟩
  | cons v rest ih =>
    intro next
    obtain ⟨ih1, ih2, ih3, ih4⟩ := ih (next + 1)
    cases hf : env.fetch (fetchUrl env v) with
    | error e =>
      have hfl : fetchLoop env (v :: rest) next =
          ⟨[.fetchCall (fetchUrl env v)], next, .error (.api e)⟩ := by
        simp [fetchLoop, hf]
      rw [hfl]
      refine ⟨le_refl _, ?_, rfl, ?_⟩
      · intro h hm
        simp at hm
      · intro urls hu
        simp at hu
    | ok resp =>
      cases hok : resp.ok with
      | false =>
        have hfl : fetchLoop env (v :: rest) next =
            ⟨[.fetchCall (fetchUrl env v)], next, .error (.download resp.statusText)⟩ := by
          simp [fetchLoop, hf, hok]
        rw [hfl]
        refine ⟨le_refl _, ?_, rfl, ?_⟩
        · intro h hm
          simp at hm
        · intro urls hu
          simp at hu
      | true =>
        have hfl : fetchLoop env (v :: rest) next =
            ⟨.fetchCall (fetchUrl env v) :: .createUrl next ::
                (fetchLoop env rest (next + 1)).events,
              (fetchLoop env rest (next + 1)).next,
              (fetchLoop env rest (next + 1)).result.map fun urls => next :: urls⟩ := by
          simp [fetchLoop, hf, hok]
        rw [hfl]
        refine ⟨le_trans (Nat.le_succ next) ih1, ?_, ?_, ?_⟩
        · intro h hm
          rcases List.mem_cons.mp hm with h1 | h1
          · simp at h1
          · rcases List.mem_cons.mp h1 with h2 | h2
            · injection h2 with h2
              subst h2
              exact ⟨le_refl _, Nat.lt_of_lt_of_le (Nat.lt_succ_self h) ih1⟩
            · obtain ⟨hh1, hh2⟩ := ih2 h h2
              exact ⟨le_trans (Nat.le_succ next) hh1, hh2⟩
        · simpa [revs, List.filterMap_cons] using ih3
        · intro urls hu
          cases hrec : (fetchLoop env rest (next + 1)).result with
          | error e =>
            rw [hrec] at hu
            simp [Except.map] at hu
          | ok rurls =>
            rw [hrec] at hu
            simp only [Except.map, Except.ok.injEq] at hu
            obtain ⟨hr1, hr2, hr3⟩ := ih4 rurls hrec
            subst hu
            have hle : next + 1 ≤ (fetchLoop env rest (next + 1)).next := ih1
            have hsub : (fetchLoop env rest (next + 1)).next - next =
                ((fetchLoop env rest (next + 1)).next - (next + 1)) + 1 := by omega
            refine ⟨?_, by simp [hr2], ?_⟩
            · rw [hsub, List.range'_succ, hr1]
            · intro w hw
              rcases List.mem_cons.mp hw with h2 | h2
              · subst h2
                exact ⟨resp, hf, hok⟩
              · exact hr3 w h2

theorem fetchLoop_fail (env : Env)
    (htotal : ∀ u, ∃ r, env.fetch u = .ok r) :
    ∀ (vids : List GeneratedVideoEntry) (next : Nat),
      (∃ v ∈ vids, ∀ r, env.fetch (fetchUrl env v) = .ok r → r.ok = false) →
      ∃ st, (fetchLoop env vids next).result = .error (.download st) := by
  intro vids
  induction vids with
  | nil =>
    rintro next ⟨v, hv, -⟩
    exact absurd hv (List.not_mem_nil v)
  | cons v rest ih =>
    rintro next ⟨w, hw, hwf⟩
    obtain ⟨r, hr⟩ := htotal (fetchUrl env v)
    cases hok : r.ok with
    | false =>
      refine ⟨r.statusText, ?_⟩
      simp [fetchLoop, hr, hok]
    | true =>
      rcases List.mem_cons.mp hw with rfl | hw'
      · exact absurd (hwf r hr) (by simp [hok])
      · obtain ⟨st, hst⟩ := ih (next + 1) ⟨w, hw', hwf⟩
        refine ⟨st, ?_⟩
        have hfl : fetchLoop env (v :: rest) next =
            ⟨.fetchCall (fetchUrl env v) :: .createUrl next ::
                (fetchLoop env rest (next + 1)).events,
              (fetchLoop env rest (next + 1)).next,
              (fetchLoop env rest (next + 1)).result.map fun urls => next :: urls⟩ := by
          simp [fetchLoop, hr, hok]
        rw [hfl]
        simp [hst, Except.map]

/-- C5: over a done operation with artifact list `vids`, if any artifact's
authenticated retrieval yields a non-ok transport response, the run fails
with the download error and zero artifacts are installed; conversely a
full batch is installed only when every artifact's retrieval succeeded,
and then the output has one resource per artifact. -/
theorem download_all_or_nothing (env : Env) (s : Session)
    (hval : ¬(s.prompt = "" ∧ s.uploadedImage = none))
    (op0 : Operation) (resp : OperationResponse) (vids : List GeneratedVideoEntry)
    (hsub : env.generateVideos (mkPayload s) = .ok op0)
    (hdone : op0.done = true)
    (hresp : op0.response = some resp)
    (hvids : resp.generatedVideos = some vids)
    (hne : vids ≠ [])
    (htotal : ∀ u, ∃ r, env.fetch u = .ok r) :
    ((∃ v ∈ vids, ∀ r, env.fetch (fetchUrl env v) = .ok r → r.ok = false) →
      (∃ st, (tryBody env (mkPayload s) s.nextUrl).result = .error (.download st)) ∧
      (handleSubmit env s).1.generatedVideos = [] ∧
      (handleSubmit env s).1.showErrorModal = true) ∧
    (∀ urls, (tryBody env (mkPayload s) s.nextUrl).result = .ok urls →
      (handleSubmit env s).1.generatedVideos = urls ∧
      urls.length = vids.length ∧
      ∀ v ∈ vids, ∃ r, env.fetch (fetchUrl env v) = .ok r ∧ r.ok = true) := by
  have hrv : responseVids op0 = some vids := by
    simp [responseVids, hresp, hvids, hne]
  have htb : tryBody env (mkPayload s) s.nextUrl =
      ⟨.submitCall (mkPayload s) :: (fetchLoop env vids s.nextUrl).events,
        (fetchLoop env vids s.nextUrl).next,
        (fetchLoop env vids s.nextUrl).result⟩ := by
    unfold tryBody
    rw [hsub]
    dsimp only
    rw [pollLoop_done env op0 hdone maxPolls 0]
    simp [hdone, hrv]
  constructor
  · intro hfail
    obtain ⟨st, hst⟩ := fetchLoop_fail env htotal vids s.nextUrl hfail
    have hres : (tryBody env (mkPayload s) s.nextUrl).result = .error (.download st) := by
      rw [htb]
      exact hst
    have hhs := handleSubmit_of_error env s hval (.download st) hres
    exact ⟨⟨st, hres⟩, by rw [hhs], by rw [hhs]⟩
  · intro urls hurls
    have hfr : (fetchLoop env vids s.nextUrl).result = .ok urls := by
      rw [htb] at hurls
      exact hurls
    have hhs := handleSubmit_of_ok env s hval urls hurls
    obtain ⟨-, -, -, hspec⟩ := fetchLoop_spec env vids s.nextUrl
    obtain ⟨-, hlen, hmem⟩ := hspec urls hfr
    exact ⟨by rw [hhs], hlen, hmem⟩

/-- A single artifact reference. -/
def oneArtifact : GeneratedVideoEntry :=
  ⟨⟨"https://v.example/1?alt=media"⟩⟩

/-- An environment whose job completes with one artifact whose retrieval
returns a non-ok transport response. -/
def envFetchFail : Env :=
  { envTriv with
    generateVideos := fun _ => .ok ⟨true, some ⟨some [oneArtifact]⟩⟩
    fetch := fun _ => .ok ⟨false, "Forbidden"⟩ }

theorem download_all_or_nothing_witness :
    (∃ st, (tryBody envFetchFail (mkPayload sOnePrompt) sOnePrompt.nextUrl).result =
        .error (.download st)) ∧
    (handleSubmit envFetchFail sOnePrompt).1.generatedVideos = [] :=
  have h := (download_all_or_nothing envFetchFail sOnePrompt (by decide)
      ⟨true, some ⟨some [oneArtifact]⟩⟩ ⟨some [oneArtifact]⟩ [oneArtifact]
      rfl rfl rfl rfl (by simp) (fun _ => ⟨⟨false, "Forbidden"⟩, rfl⟩)).1
      ⟨oneArtifact, by simp, fun r hr => by injection hr with h2; rw [← h2]⟩
  ⟨h.1, h.2.1⟩

theorem empty_result_unknown_witness :
    (tryBody envEmpty (mkPayload sOnePrompt) sOnePrompt.nextUrl).result =
        .error .noResult ∧
    (handleSubmit envEmpty sOnePrompt).1.generatedVideos = [] :=
  ⟨(empty_result_unknown envEmpty sOnePrompt (by decide) ⟨true, some ⟨some []⟩⟩ rfl rfl
      (.inr ⟨⟨some []⟩, rfl, .inr rfl⟩)).1,
    (empty_result_unknown envEmpty sOnePrompt (by decide) ⟨true, some ⟨some []⟩⟩ rfl rfl
      (.inr ⟨⟨some []⟩, rfl, .inr rfl⟩)).2.2.2.1⟩

/- ## Resource-lifecycle invariant -/

theorem mem_creates {h : Nat} {evs : List Event} (hm : Event.createUrl h ∈ evs) :
    h ∈ creates evs :=
  List.mem_filterMap.mpr ⟨_, hm, rfl⟩

theorem pollLoop_events (env : Env) :
    ∀ (fuel : Nat) (op : Operation) (c : Nat),
      revs (pollLoop env fuel op c).1 = [] ∧ creates (pollLoop env fuel op c).1 = [] := by
  intro fuel
  induction fuel with
  | zero => intro op c; exact ⟨rfl, rfl⟩
  | succ n ih =>
    intro op c
    cases hd : op.done with
    | true =>
      have hfl : pollLoop env (n + 1) op c = ([], .ok op) := by
        simp [pollLoop, hd]
      rw [hfl]
      exact ⟨rfl, rfl⟩
    | false =>
      cases hg : env.getVideosOperation op with
      | error e =>
        have hfl : pollLoop env (n + 1) op c =
            ([.sleep 10000, .pollCall (c + 1)], .error e) := by
          simp [pollLoop, hd, hg]
        rw [hfl]
        exact ⟨rfl, rfl⟩
      | ok o2 =>
        have hfl : pollLoop env (n + 1) op c =
            (.sleep 10000 :: .pollCall (c + 1) :: .progress (c + 1) ::
                (pollLoop env n o2 (c + 1)).1,
              (pollLoop env n o2 (c + 1)).2) := by
          simp [pollLoop, hd, hg]
        rw [hfl]
        obtain ⟨ih1, ih2⟩ := ih o2 (c + 1)
        constructor
        · simpa [revs, List.filterMap_cons] using ih1
        · simpa [creates, List.filterMap_cons] using ih2

theorem tryBody_spec (env : Env) (payload : Payload) (next : Nat) :
    next ≤ (tryBody env payload next).next ∧
    (∀ h, Event.createUrl h ∈ (tryBody env payload next).events →
      next ≤ h ∧ h < (tryBody env payload next).next) ∧
    revs (tryBody env payload next).events = [] ∧
    (∀ urls, (tryBody env payload next).result = .ok urls →
      urls = List.range' next ((tryBody env payload next).next - next)) := by
  cases hs : env.generateVideos payload with
  | error e =>
    have hfl : tryBody env payload next =
        ⟨[.submitCall payload], next, .error (.api e)⟩ := by
      simp [tryBody, hs]
    rw [hfl]
    refine ⟨le_refl _, ?_, rfl, ?_⟩
    · intro h hm
      simp at hm
    · intro urls hu
      simp at hu
  | ok op0 =>
    obtain ⟨hpe1, hpe2⟩ := pollLoop_events env maxPolls op0 0
    cases hpr : (pollLoop env maxPolls op0 0).2 with
    | error e =>
      have hfl : tryBody env payload next =
          ⟨.submitCall payload :: (pollLoop env maxPolls op0 0).1, next,
            .error (.api e)⟩ := by
        simp [tryBody, hs, hpr]
      rw [hfl]
      refine ⟨le_refl _, ?_, ?_, ?_⟩
      · intro h hm
        rcases List.mem_cons.mp hm with h1 | h1
        · simp at h1
        · have h2 := mem_creates h1
          rw [hpe2] at h2
          simp at h2
      · simpa [revs, List.filterMap_cons] using hpe1
      · intro urls hu
        simp at hu
    | ok opF =>
      cases hd : opF.done with
      | false =>
        have hfl : tryBody env payload next =
            ⟨.submitCall payload :: (pollLoop env maxPolls op0 0).1, next,
              .error .timeout⟩ := by
          simp [tryBody, hs, hpr, hd]
        rw [hfl]
        refine ⟨le_refl _, ?_, ?_, ?_⟩
        · intro h hm
          rcases List.mem_cons.mp hm with h1 | h1
          · simp at h1
          · have h2 := mem_creates h1
            rw [hpe2] at h2
            simp at h2
        · simpa [revs, List.filterMap_cons] using hpe1
        · intro urls hu
          simp at hu
      | true =>
        cases hv : responseVids opF with
        | none =>
          have hfl : tryBody env payload next =
              ⟨.submitCall payload :: (pollLoop env maxPolls op0 0).1, next,
                .error .noResult⟩ := by
            simp [tryBody, hs, hpr, hd, hv]
          rw [hfl]
          refine ⟨le_refl _, ?_, ?_, ?_⟩
          · intro h hm
            rcases List.mem_cons.mp hm with h1 | h1
            · simp at h1
            · have h2 := mem_creates h1
              rw [hpe2] at h2
              simp at h2
          · simpa [revs, List.filterMap_cons] using hpe1
          · intro urls hu
            simp at hu
        | some vids =>
          have hfl : tryBody env payload next =
              ⟨.submitCall payload :: ((pollLoop env maxPolls op0 0).1 ++
                  (fetchLoop env vids next).events),
                (fetchLoop env vids next).next, (fetchLoop env vids next).result⟩ := by
            simp [tryBody, hs, hpr, hd, hv]
          obtain ⟨hf1, hf2, hf3, hf4⟩ := fetchLoop_spec env vids next
          rw [hfl]
          refine ⟨hf1, ?_, ?_, ?_⟩
          · intro h hm
            rcases List.mem_cons.mp hm with h1 | h1
            · simp at h1
            · rcases List.mem_append.mp h1 with h2 | h2
              · have h3 := mem_creates h2
                rw [hpe2] at h3
                simp at h3
              · exact hf2 h h2
          · have hsplit : revs (Event.submitCall payload ::
                ((pollLoop env maxPolls op0 0).1 ++ (fetchLoop env vids next).events)) =
                revs (pollLoop env maxPolls op0 0).1 ++
                  revs (fetchLoop env vids next).events := by
              simp [revs, List.filterMap_cons, List.filterMap_append]
            rw [hsplit, hpe1, hf3]
            rfl
          · intro urls hu
            exact (hf4 urls hu).1

/-- The resource-lifecycle invariant: the installed batch and the list of
already-revoked handles are duplicate-free, mutually disjoint, and all
below the freshness counter. -/
structure Inv (s : Session) (revoked : List Nat) : Prop where
  nodupBatch : s.generatedVideos.Nodup
  batchLt : ∀ h ∈ s.generatedVideos, h < s.nextUrl
  revNodup : revoked.Nodup
  revLt : ∀ h ∈ revoked, h < s.nextUrl
  disj : ∀ h ∈ s.generatedVideos, h ∉ revoked

theorem inv_of_frame {s s' : Session} {revoked : List Nat} (hinv : Inv s revoked)
    (hb : s'.generatedVideos = s.generatedVideos) (hn : s'.nextUrl = s.nextUrl) :
    Inv s' revoked := by
  refine ⟨?_, ?_, hinv.revNodup, ?_, ?_⟩
  · rw [hb]
    exact hinv.nodupBatch
  · rw [hb, hn]
    exact hinv.batchLt
  · rw [hn]
    exact hinv.revLt
  · rw [hb]
    exact hinv.disj

theorem handleSubmit_events (env : Env) (s : Session)
    (hval : ¬(s.prompt = "" ∧ s.uploadedImage = none)) :
    (handleSubmit env s).2 =
      s.generatedVideos.map Event.revoke ++
        (tryBody env (mkPayload s) s.nextUrl).events := by
  unfold handleSubmit
  rw [if_neg (by simpa [Option.isNone_iff_eq_none] using hval)]
  dsimp only
  split <;> rfl

theorem handleSubmit_inv (env : Env) (s : Session) (revoked : List Nat)
    (hinv : Inv s revoked) :
    Inv (handleSubmit env s).1 (revoked ++ revs (handleSubmit env s).2) := by
  by_cases hval : s.prompt = "" ∧ s.uploadedImage = none
  · have hfl : handleSubmit env s =
        ({ s with errorMessage := validationMessage, showErrorModal := true }, []) := by
      unfold handleSubmit
      rw [if_pos (by simp [hval.1, hval.2])]
    rw [hfl]
    have h0 : revoked ++ revs ([] : List Event) = revoked := by simp [revs]
    rw [h0]
    exact inv_of_frame hinv rfl rfl
  · obtain ⟨ht1, ht2, ht3, ht4⟩ := tryBody_spec env (mkPayload s) s.nextUrl
    have hre : revs (handleSubmit env s).2 = s.generatedVideos := by
      rw [handleSubmit_events env s hval, revs_append, revs_of_revokes, ht3, List.append_nil]
    have hrevN : (revoked ++ s.generatedVideos).Nodup :=
      hinv.revNodup.append hinv.nodupBatch fun a ha hb => hinv.disj a hb ha
    have hrevLt : ∀ h ∈ revoked ++ s.generatedVideos,
        h < (tryBody env (mkPayload s) s.nextUrl).next := by
      intro h hm
      rcases List.mem_append.mp hm with h1 | h1
      · exact Nat.lt_of_lt_of_le (hinv.revLt h h1) ht1
      · exact Nat.lt_of_lt_of_le (hinv.batchLt h h1) ht1
    rw [hre]
    cases hres : (tryBody env (mkPayload s) s.nextUrl).result with
    | error e =>
      have hfl := handleSubmit_of_error env s hval e hres
      rw [hfl]
      exact ⟨List.nodup_nil, by simp, hrevN, hrevLt, by simp⟩
    | ok urls =>
      have hfl := handleSubmit_of_ok env s hval urls hres
      have hurls := ht4 urls hres
      rw [hfl]
      refine ⟨?_, ?_, hrevN, hrevLt, ?_⟩
      · show urls.Nodup
        rw [hurls]
        exact List.nodup_range' _ _
      · show ∀ h ∈ urls, h < (tryBody env (mkPayload s) s.nextUrl).next
        intro h hm
        rw [hurls] at hm
        obtain ⟨hm1, hm2⟩ := List.mem_range'_1.mp hm
        omega
      · show ∀ h ∈ urls, h ∉ revoked ++ s.generatedVideos
        intro h hm hmem
        rw [hurls] at hm
        obtain ⟨hm1, hm2⟩ := List.mem_range'_1.mp hm
        rcases List.mem_append.mp hmem with h1 | h1
        · exact absurd (hinv.revLt h h1) (by omega)
        · exact absurd (hinv.batchLt h h1) (by omega)

theorem handleSubmit_keep (env : Env) (s : Session) (h : Nat)
    (hm : h ∈ s.generatedVideos) :
    h ∈ (handleSubmit env s).1.generatedVideos ∨ h ∈ revs (handleSubmit env s).2 := by
  by_cases hval : s.prompt = "" ∧ s.uploadedImage = none
  · left
    have hfl : handleSubmit env s =
        ({ s with errorMessage := validationMessage, showErrorModal := true }, []) := by
      unfold handleSubmit
      rw [if_pos (by simp [hval.1, hval.2])]
    rw [hfl]
    exact hm
  · right
    rw [handleSubmit_events env s hval, revs_append, revs_of_revokes]
    exact List.mem_append.mpr (.inl hm)

theorem uiSubmit_inv (env : Env) (s : Session) (revoked : List Nat)
    (hinv : Inv s revoked) :
    Inv (uiSubmit env s).1 (revoked ++ revs (uiSubmit env s).2) := by
  by_cases hl : s.isLoading
  · have hfl : uiSubmit env s = (s, []) := by simp [uiSubmit, hl]
    rw [hfl]
    have h0 : revoked ++ revs ([] : List Event) = revoked := by simp [revs]
    rw [h0]
    exact hinv
  · have hfl : uiSubmit env s = handleSubmit env s := by simp [uiSubmit, hl]
    rw [hfl]
    exact handleSubmit_inv env s revoked hinv

theorem uiSubmit_keep (env : Env) (s : Session) (h : Nat) (hm : h ∈ s.generatedVideos) :
    h ∈ (uiSubmit env s).1.generatedVideos ∨ h ∈ revs (uiSubmit env s).2 := by
  by_cases hl : s.isLoading
  · left
    have hfl : uiSubmit env s = (s, []) := by simp [uiSubmit, hl]
    rw [hfl]
    exact hm
  · have hfl : uiSubmit env s = handleSubmit env s := by simp [uiSubmit, hl]
    rw [hfl]
    exact handleSubmit_keep env s h hm

theorem step_inv (s : Session) (revoked : List Nat) (e : UIEvent) (hinv : Inv s revoked) :
    Inv (step s e).1 (revoked ++ revs (step s e).2) := by
  cases e with
  | clearEv =>
    refine ⟨List.nodup_nil, fun h hm => absurd hm (List.not_mem_nil h), ?_, ?_,
      fun h hm => absurd hm (List.not_mem_nil h)⟩
    · rw [show (step s UIEvent.clearEv).2 = s.generatedVideos.map Event.revoke from rfl,
          revs_of_revokes]
      exact hinv.revNodup.append hinv.nodupBatch fun a ha hb => hinv.disj a hb ha
    · rw [show (step s UIEvent.clearEv).2 = s.generatedVideos.map Event.revoke from rfl,
          revs_of_revokes]
      intro h hm
      rcases List.mem_append.mp hm with h1 | h1
      · exact hinv.revLt h h1
      · exact hinv.batchLt h h1
  | submitEv env => exact uiSubmit_inv env s revoked hinv
  | _ =>
    simp only [step, revs, List.filterMap_nil, List.append_nil]
    exact inv_of_frame hinv rfl rfl

theorem step_keep (s : Session) (e : UIEvent) (h : Nat) (hm : h ∈ s.generatedVideos) :
    h ∈ (step s e).1.generatedVideos ∨ h ∈ revs (step s e).2 := by
  cases e with
  | clearEv =>
    right
    rw [show (step s UIEvent.clearEv).2 = s.generatedVideos.map Event.revoke from rfl,
        revs_of_revokes]
    exact hm
  | submitEv env => exact uiSubmit_keep env s h hm
  | _ => exact .inl hm

theorem runTrace_inv :
    ∀ (es : List UIEvent) (s : Session) (revoked : List Nat), Inv s revoked →
      Inv (runTrace s es).1 (revoked ++ revs (runTrace s es).2)
  | [], s, revoked, hinv => by
    have h0 : revoked ++ revs (runTrace s []).2 = revoked := by simp [runTrace, revs]
    rw [h0]
    exact hinv
  | e :: es, s, revoked, hinv => by
    have h1 := step_inv s revoked e hinv
    have h2 := runTrace_inv es (step s e).1 (revoked ++ revs (step s e).2) h1
    have h3 : runTrace s (e :: es) =
        ((runTrace (step s e).1 es).1, (step s e).2 ++ (runTrace (step s e).1 es).2) := rfl
    rw [h3]
    have h4 : revoked ++ revs ((step s e).2 ++ (runTrace (step s e).1 es).2) =
        (revoked ++ revs (step s e).2) ++ revs (runTrace (step s e).1 es).2 := by
      rw [revs_append, List.append_assoc]
    rw [h4]
    exact h2

theorem runTrace_keep :
    ∀ (es : List UIEvent) (s : Session) (h : Nat), h ∈ s.generatedVideos →
      h ∈ (runTrace s es).1.generatedVideos ∨ h ∈ revs (runTrace s es).2
  | [], _, _, hm => .inl hm
  | e :: es, s, h, hm => by
    have h3 : runTrace s (e :: es) =
        ((runTrace (step s e).1 es).1, (step s e).2 ++ (runTrace (step s e).1 es).2) := rfl
    rw [h3, revs_append]
    rcases step_keep s e h hm with h1 | h1
    · rcases runTrace_keep es (step s e).1 h h1 with h2 | h2
      · exact .inl h2
      · exact .inr (List.mem_append.mpr (.inr h2))
    · exact .inr (List.mem_append.mpr (.inl h1))

theorem runTrace_append (p q : List UIEvent) :
    ∀ s : Session, runTrace s (p ++ q) =
      ((runTrace (runTrace s p).1 q).1,
        (runTrace s p).2 ++ (runTrace (runTrace s p).1 q).2) := by
  induction p with
  | nil => intro s; simp [runTrace]
  | cons e p ih =>
    intro s
    have h3 : runTrace s (e :: (p ++ q)) =
        ((runTrace (step s e).1 (p ++ q)).1,
          (step s e).2 ++ (runTrace (step s e).1 (p ++ q)).2) := rfl
    rw [show (e :: p) ++ q = e :: (p ++ q) from rfl, h3, ih (step s e).1]
    have h4 : runTrace s (e :: p) =
        ((runTrace (step s e).1 p).1, (step s e).2 ++ (runTrace (step s e).1 p).2) := rfl
    rw [h4]
    simp [List.append_assoc]

/-- C3: along every interaction history, revocations are duplicate-free (no
handle is ever released twice), no handle in the current batch has been
released, every handle that was ever installed is either still current or
has been released exactly once, and clearing revokes exactly the current
duplicate-free batch and leaves it empty. -/
theorem resource_lifecycle (p q : List UIEvent) :
    (revs (runTrace initSession (p ++ q)).2).Nodup ∧
    (∀ h ∈ (runTrace initSession (p ++ q)).1.generatedVideos,
      h ∉ revs (runTrace initSession (p ++ q)).2) ∧
    (∀ h ∈ (runTrace initSession p).1.generatedVideos,
      h ∈ (runTrace initSession (p ++ q)).1.generatedVideos ∨
        (revs (runTrace initSession (p ++ q)).2).count h = 1) ∧
    (runTrace initSession (p ++ q)).1.generatedVideos.Nodup ∧
    (step (runTrace initSession (p ++ q)).1 UIEvent.clearEv).1.generatedVideos = [] ∧
    (step (runTrace initSession (p ++ q)).1 UIEvent.clearEv).2 =
      (runTrace initSession (p ++ q)).1.generatedVideos.map Event.revoke := by
  have hinv0 : Inv initSession [] :=
    ⟨List.nodup_nil, fun h hm => absurd hm (List.not_mem_nil h), List.nodup_nil,
      fun h hm => absurd hm (List.not_mem_nil h), fun h hm => absurd hm (List.not_mem_nil h)⟩
  have hinv := runTrace_inv (p ++ q) initSession [] hinv0
  rw [List.nil_append] at hinv
  refine ⟨hinv.revNodup, hinv.disj, ?_, hinv.nodupBatch, rfl, rfl⟩
  intro h hm
  have happ := runTrace_append p q initSession
  have hkeep := runTrace_keep q (runTrace initSession p).1 h hm
  rcases hkeep with h1 | h1
  · left
    rw [happ]
    exact h1
  · right
    refine List.count_eq_one_of_mem hinv.revNodup ?_
    rw [happ, revs_append]
    exact List.mem_append.mpr (.inr h1)

theorem resource_lifecycle_witness :
    (revs (runTrace initSession ([UIEvent.clearEv] ++ [UIEvent.clearEv])).2).Nodup ∧
    (step (runTrace initSession
        ([UIEvent.clearEv] ++ [UIEvent.clearEv])).1 UIEvent.clearEv).1.generatedVideos = [] :=
  ⟨(resource_lifecycle [UIEvent.clearEv] [UIEvent.clearEv]).1,
    (resource_lifecycle [UIEvent.clearEv] [UIEvent.clearEv]).2.2.2.2.1⟩


end VeoStudio
